import Mathlib

/-!
Shallow embedding of the tailorshop server actions
(src/src/app/dashboard/layout.tsx) and of the login page guard.

The relational store (supabase) is modelled as an explicit list of rows;
an update with an `.eq('id', setId)` filter rewrites every row whose `id`
column equals `setId`.  The current wall-clock time (`new Date()`), the
row id generated by the store on insert, and the success or failure of a
store round trip are inputs of the model, since they are external to the
code under verification.  `revalidatePath` calls are recorded in the
operation output.
-/

/-- A row of the `measurement_sets` table (columns as selected in
`getCustomerById`).  Status columns are strings, matching the structural
string comparisons (`newStatus === 'Completed'`) in the source. -/
structure MeasurementSetRow where
  id : String
  customer_id : String
  date : String
  measurements : String
  job_number : Option String
  request_date : Option String
  payment_status : String
  order_status : String
  completion_date : Option String
  handover_date : Option String
deriving DecidableEq, Repr

/-- Result value of a server action: `{ success: true }` or `{ error: msg }`. -/
inductive ActionResult where
  | success : ActionResult
  | error (message : String) : ActionResult
deriving DecidableEq, Repr

/-- Output of a measurement-set action: the new table contents, the returned
result object, and the list of paths passed to `revalidatePath`. -/
structure OpOutput where
  db : List MeasurementSetRow
  result : ActionResult
  revalidated : List String
deriving DecidableEq, Repr

/-- The customer detail page path, as interpolated in the source. -/
def custPath (customerId : String) : String :=
  "/dashboard/customer/" ++ customerId

/-- The partial update object built by `updateOrderStatus` (lines 194-201),
applied to one row: `order_status` is always overwritten; `completion_date`
is included exactly when `newStatus === 'Completed'`; `handover_date`
exactly when `newStatus === 'Handed Over'`. -/
def applyOrderUpdate (newStatus now : String) (r : MeasurementSetRow) :
    MeasurementSetRow :=
  if newStatus = "Completed" then
    { r with order_status := newStatus, completion_date := some now }
  else if newStatus = "Handed Over" then
    { r with order_status := newStatus, handover_date := some now }
  else
    { r with order_status := newStatus }

/-- The update object of `updatePaymentStatus` (line 217): only the
`payment_status` column. -/
def applyPaymentUpdate (newStatus : String) (r : MeasurementSetRow) :
    MeasurementSetRow :=
  { r with payment_status := newStatus }

/-- `supabase.from('measurement_sets').update(f).eq('id', setId)`:
apply the partial update `f` to every row whose id equals `setId`. -/
def updateRows (setId : String) (f : MeasurementSetRow → MeasurementSetRow) :
    List MeasurementSetRow → List MeasurementSetRow
  | [] => []
  | r :: rest => (if r.id == setId then f r else r) :: updateRows setId f rest

/-- `updateOrderStatus(setId, customerId, newStatus)` (lines 191-211).
`now` is the value of `new Date().toISOString()`; `storeFail` tells whether
the store round trip reported an error (in which case the store applied no
change and the action returns the failure object without revalidating). -/
def updateOrderStatus (setId customerId newStatus now : String)
    (storeFail : Bool) (db : List MeasurementSetRow) : OpOutput :=
  if storeFail then
    ⟨db, ActionResult.error "Failed to update order status.", []⟩
  else
    ⟨updateRows setId (applyOrderUpdate newStatus now) db,
     ActionResult.success, [custPath customerId]⟩

/-- `updatePaymentStatus(setId, customerId, newStatus)` (lines 214-225). -/
def updatePaymentStatus (setId customerId newStatus : String)
    (storeFail : Bool) (db : List MeasurementSetRow) : OpOutput :=
  if storeFail then
    ⟨db, ActionResult.error "Failed to update payment status.", []⟩
  else
    ⟨updateRows setId (applyPaymentUpdate newStatus) db,
     ActionResult.success, [custPath customerId]⟩

/-- Fields of a measurement set supplied by the caller of
`addMeasurementSet` (the `Omit<MeasurementSet, 'id' | 'date'>` argument). -/
structure NewMeasurementSet where
  measurements : String
  jobNumber : Option String
  requestDate : Option String
  paymentStatus : String
  orderStatus : String
deriving DecidableEq, Repr

/-- The row inserted by `addMeasurementSet` (lines 172-180): `date` is the
current time, the caller's fields are copied through verbatim, and no
completion or handover date is supplied (they start null). -/
def mkInsertedRow (customerId now newId : String) (ms : NewMeasurementSet) :
    MeasurementSetRow :=
  ⟨newId, customerId, now, ms.measurements, ms.jobNumber, ms.requestDate,
   ms.paymentStatus, ms.orderStatus, none, none⟩

/-- `addMeasurementSet(customerId, measurementSet)` (lines 169-189).
`newId` is the id generated by the store for the inserted row. -/
def addMeasurementSet (customerId : String) (ms : NewMeasurementSet)
    (now newId : String) (storeFail : Bool)
    (db : List MeasurementSetRow) : OpOutput :=
  if storeFail then
    ⟨db, ActionResult.error "Failed to add measurement set.", []⟩
  else
    ⟨db ++ [mkInsertedRow customerId now newId ms],
     ActionResult.success, [custPath customerId]⟩

/-- Look up the (first) row with the given id, as a `select ... eq('id', s)`
with `.single()` would. -/
def findSet (db : List MeasurementSetRow) (setId : String) :
    Option MeasurementSetRow :=
  match db with
  | [] => none
  | r :: rest => if r.id == setId then some r else findSet rest setId

/-- Stored order status of the targeted set, if it exists. -/
def orderStatusAt (db : List MeasurementSetRow) (setId : String) :
    Option String :=
  (findSet db setId).map (fun r => r.order_status)

/-- Stored payment status of the targeted set, if it exists. -/
def paymentAt (db : List MeasurementSetRow) (setId : String) :
    Option String :=
  (findSet db setId).map (fun r => r.payment_status)

/-- Stored completion date column of the targeted set, if it exists. -/
def completionAt (db : List MeasurementSetRow) (setId : String) :
    Option (Option String) :=
  (findSet db setId).map (fun r => r.completion_date)

/-- Stored handover date column of the targeted set, if it exists. -/
def handoverAt (db : List MeasurementSetRow) (setId : String) :
    Option (Option String) :=
  (findSet db setId).map (fun r => r.handover_date)

/-- Whether the targeted set exists and its completion date is non-null. -/
def completionSet (db : List MeasurementSetRow) (setId : String) : Bool :=
  match findSet db setId with
  | some r => r.completion_date.isSome
  | none => false

/-- Whether the targeted set exists and its handover date is non-null. -/
def handoverSet (db : List MeasurementSetRow) (setId : String) : Bool :=
  match findSet db setId with
  | some r => r.handover_date.isSome
  | none => false

/-- One status-update request against the store, for reasoning about
sequences of calls. -/
inductive StatusOp where
  | orderUpd (setId customerId newStatus now : String) (storeFail : Bool)
  | payUpd (setId customerId newStatus : String) (storeFail : Bool)
deriving DecidableEq, Repr

/-- The effect of one status-update call on the table contents. -/
def applyStatusOp (op : StatusOp) (db : List MeasurementSetRow) :
    List MeasurementSetRow :=
  match op with
  | StatusOp.orderUpd s c n now f => (updateOrderStatus s c n now f db).db
  | StatusOp.payUpd s c n f => (updatePaymentStatus s c n f db).db

/-- Table contents after a sequence of status-update calls. -/
def runOps (ops : List StatusOp) (db : List MeasurementSetRow) :
    List MeasurementSetRow :=
  ops.foldl (fun d op => applyStatusOp op d) db

/-!
Form validation.  The schemas are zod objects; `z.string().min(n)` checks
the string length against `n`, and `z.string().email()` checks the zod
library's email pattern.  The email validator lives in the zod dependency,
not in this repository; it is modelled here after zod's published email
pattern: a non-empty local part of letters, digits and `_ ' + - .` not
starting with a dot and ending in a non-dot, non-apostrophe character,
exactly one at-sign, a domain of one or more alphanumeric-plus-hyphen
labels each starting alphanumeric, a final alphabetic top-level label of
length at least two, and no two consecutive dots anywhere.
-/

/-- Characters allowed in the local part of an email address. -/
def isLocalChar (c : Char) : Bool :=
  c.isAlphanum || c = '_' || c = '\'' || c = '+' || c = '-' || c = '.'

/-- Characters allowed as the final character of the local part. -/
def isLocalEndChar (c : Char) : Bool :=
  c.isAlphanum || c = '_' || c = '+' || c = '-'

/-- Whether the character list contains two consecutive dots. -/
def hasDoubleDot : List Char → Bool
  | '.' :: '.' :: _ => true
  | _ :: rest => hasDoubleDot rest
  | [] => false

/-- Split a character list on a separator character; always returns at
least one (possibly empty) chunk. -/
def splitOnChar (sep : Char) : List Char → List (List Char)
  | [] => [[]]
  | c :: rest =>
    if c = sep then [] :: splitOnChar sep rest
    else
      match splitOnChar sep rest with
      | [] => [[c]]
      | p :: ps => (c :: p) :: ps

/-- Local-part check: non-empty, allowed characters only, does not start
with a dot, ends in an allowed final character. -/
def localOk (cs : List Char) : Bool :=
  match cs with
  | [] => false
  | c :: _ =>
    c ≠ '.' && cs.all isLocalChar &&
      (match cs.getLast? with
       | some d => isLocalEndChar d
       | none => false)

/-- Domain label check: non-empty, starts alphanumeric, continues with
alphanumerics or hyphens. -/
def labelOk (cs : List Char) : Bool :=
  match cs with
  | [] => false
  | c :: rest => c.isAlphanum && rest.all (fun d => d.isAlphanum || d = '-')

/-- Top-level label check: alphabetic, length at least two. -/
def tldOk (cs : List Char) : Bool :=
  decide (2 ≤ cs.length) && cs.all Char.isAlpha

/-- Domain check: one or more labels followed by a top-level label,
separated by dots. -/
def domainOk (cs : List Char) : Bool :=
  match (splitOnChar '.' cs).reverse with
  | [] => false
  | tld :: labels => tldOk tld && !labels.isEmpty && labels.all labelOk

/-- The zod email pattern over a character list: exactly one at-sign
separating a valid local part from a valid domain, with no double dot. -/
def zodEmailChars (cs : List Char) : Bool :=
  match splitOnChar '@' cs with
  | [l, d] => !hasDoubleDot cs && localOk l && domainOk d
  | _ => false

/-- `z.string().email()` on a string. -/
def zodEmail (s : String) : Bool :=
  zodEmailChars s.toList

/-- `z.string().min(n)`: the string length is at least `n`. -/
def zodMin (n : Nat) (s : String) : Bool :=
  decide (n ≤ s.length)

/-- The email/password form data consumed by `login` and `signup`. -/
structure LoginForm where
  email : String
  password : String
deriving DecidableEq, Repr

/-- `loginSchema` (lines 32-35): email format and password length >= 6. -/
def loginSchemaValid (f : LoginForm) : Bool :=
  zodEmail f.email && zodMin 6 f.password

/-- `signupSchema` (lines 37-40): identical to the login schema. -/
def signupSchemaValid (f : LoginForm) : Bool :=
  zodEmail f.email && zodMin 6 f.password

/-- The customer form data consumed by `createCustomer` / `updateCustomer`. -/
structure CustomerForm where
  name : String
  nic : String
  contact : String
  orderHistory : Option String
  preferences : Option String
deriving DecidableEq, Repr

/-- `customerFormSchema` (lines 101-107): name >= 2, nic >= 5, contact >= 5
characters; order history and preferences optional. -/
def customerFormValid (f : CustomerForm) : Bool :=
  zodMin 2 f.name && zodMin 5 f.nic && zodMin 5 f.contact

/-- The flattened field errors of `customerFormSchema`, with the messages
given in the source. -/
def customerFieldErrors (f : CustomerForm) : List (String × String) :=
  (if zodMin 2 f.name then []
   else [("name", "Name must be at least 2 characters.")]) ++
  (if zodMin 5 f.nic then []
   else [("nic", "NIC must be at least 5 characters.")]) ++
  (if zodMin 5 f.contact then []
   else [("contact", "Contact information is required.")])

/-- Result of a form action: a structured error object (message plus
field-level messages, possibly none), a redirect, or `{ success: true }`. -/
inductive FormResult where
  | failure (message : String) (fields : List (String × String))
  | redirectTo (path : String)
  | ok
deriving DecidableEq, Repr

/-- Whether a form result is an error object carrying field-level
messages. -/
def hasFieldMessages : FormResult → Bool
  | FormResult.failure _ fields => !fields.isEmpty
  | _ => false

/-- An external call performed by a form action: authentication calls and
store writes. -/
inductive Effect where
  | authSignIn (email password : String)
  | authSignUp (email password : String)
  | authGetUser
  | storeInsertCustomer (f : CustomerForm) (userId : String)
  | storeUpdateCustomer (customerId : String) (f : CustomerForm)
deriving DecidableEq, Repr

/-- `login(formData)` (lines 42-62).  `authOk` is the outcome of the
`signInWithPassword` round trip.  Returns the result object and the list
of external calls performed. -/
def login (f : LoginForm) (authOk : Bool) : FormResult × List Effect :=
  if loginSchemaValid f then
    if authOk then
      (FormResult.redirectTo "/dashboard", [Effect.authSignIn f.email f.password])
    else
      (FormResult.failure "Could not authenticate user" [],
       [Effect.authSignIn f.email f.password])
  else
    (FormResult.failure "Invalid fields" [], [])

/-- `signup(formData)` (lines 64-92).  `authOk` is the outcome of the
`signUp` round trip; on success the action also signs the user in. -/
def signup (f : LoginForm) (authOk : Bool) : FormResult × List Effect :=
  if signupSchemaValid f then
    if authOk then
      (FormResult.redirectTo "/dashboard",
       [Effect.authSignUp f.email f.password,
        Effect.authSignIn f.email f.password])
    else
      (FormResult.failure "Could not authenticate user" [],
       [Effect.authSignUp f.email f.password])
  else
    (FormResult.failure "Invalid fields" [], [])

/-- A row of the `customers` table as inserted by `createCustomer`
(`created_at` is filled in by the store and omitted here). -/
structure CustomerRow where
  id : String
  name : String
  nic : String
  contact : String
  orderHistory : Option String
  preferences : Option String
  user_id : String
deriving DecidableEq, Repr

/-- `createCustomer(formData)` (lines 109-131).  `user` is the identity
returned by `auth.getUser`, `newId` the id the store generates for the
inserted row, `storeFail` the outcome of the insert.  Returns the result,
the new `customers` table, and the external calls performed. -/
def createCustomer (f : CustomerForm) (user : Option String) (newId : String)
    (storeFail : Bool) (customers : List CustomerRow) :
    FormResult × List CustomerRow × List Effect :=
  if customerFormValid f then
    match user with
    | none =>
      (FormResult.failure "You must be logged in to create a customer." [],
       customers, [Effect.authGetUser])
    | some uid =>
      if storeFail then
        (FormResult.failure "Failed to create customer." [], customers,
         [Effect.authGetUser, Effect.storeInsertCustomer f uid])
      else
        (FormResult.redirectTo (custPath newId),
         customers ++ [⟨newId, f.name, f.nic, f.contact, f.orderHistory,
                        f.preferences, uid⟩],
         [Effect.authGetUser, Effect.storeInsertCustomer f uid])
  else
    (FormResult.failure "Invalid fields" (customerFieldErrors f),
     customers, [])

/-- `updateCustomer(customerId, formData)` (lines 133-153). -/
def updateCustomer (customerId : String) (f : CustomerForm)
    (storeFail : Bool) (customers : List CustomerRow) :
    FormResult × List CustomerRow × List Effect :=
  if customerFormValid f then
    if storeFail then
      (FormResult.failure "Failed to update customer." [], customers,
       [Effect.storeUpdateCustomer customerId f])
    else
      (FormResult.ok,
       customers.map (fun c =>
         if c.id == customerId then
           { c with name := f.name, nic := f.nic, contact := f.contact,
                    orderHistory := f.orderHistory,
                    preferences := f.preferences }
         else c),
       [Effect.storeUpdateCustomer customerId f])
  else
    (FormResult.failure "Invalid fields" (customerFieldErrors f),
     customers, [])

/-- Nested measurement-set columns selected by `getCustomers`. -/
structure SetSummary where
  job_number : Option String
  order_status : String
deriving DecidableEq, Repr

/-- A `customers` row as returned by the joined select in `getCustomers`. -/
structure CustomerJoined where
  id : String
  name : String
  nic : String
  contact : String
  order_history : Option String
  preferences : Option String
  created_at : String
  user_id : String
  measurement_sets : List SetSummary
deriving DecidableEq, Repr

/-- The shape `getCustomers` returns per customer: the row spread plus the
`measurementSets` alias. -/
structure CustomerListing where
  row : CustomerJoined
  measurementSets : List SetSummary
deriving DecidableEq, Repr

/-- `getCustomers()` (lines 229-246): on a store error the action logs and
returns the empty list; on success it maps each row to the listing shape. -/
def getCustomers (queryResult : Except String (List CustomerJoined)) :
    List CustomerListing :=
  match queryResult with
  | Except.error _ => []
  | Except.ok data => data.map (fun c => ⟨c, c.measurement_sets⟩)

/-- A sample stored row used to instantiate theorems with hypotheses. -/
def sampleRow : MeasurementSetRow :=
  ⟨"s1", "c1", "2024-01-01", "m", none, none, "Unpaid", "Pending", none, none⟩

/-- A sample stored row whose completion and handover dates are set. -/
def stampedRow : MeasurementSetRow :=
  ⟨"s2", "c1", "2024-01-01", "m", none, none, "Paid", "Handed Over",
   some "2024-02-01", some "2024-03-01"⟩

/-- A sample table holding both rows. -/
def sampleDb : List MeasurementSetRow :=
  [sampleRow, stampedRow]

/-! Helper lemmas about the row-level update functions. -/

theorem applyOrderUpdate_id (ns now : String) (r : MeasurementSetRow) :
    (applyOrderUpdate ns now r).id = r.id := by
  unfold applyOrderUpdate
  split
  · rfl
  · split <;> rfl

theorem applyOrderUpdate_status (ns now : String) (r : MeasurementSetRow) :
    (applyOrderUpdate ns now r).order_status = ns := by
  unfold applyOrderUpdate
  split
  · rfl
  · split <;> rfl

theorem applyOrderUpdate_payment (ns now : String) (r : MeasurementSetRow) :
    (applyOrderUpdate ns now r).payment_status = r.payment_status := by
  unfold applyOrderUpdate
  split
  · rfl
  · split <;> rfl

theorem applyOrderUpdate_completion_isSome (ns now : String)
    (r : MeasurementSetRow) (h : r.completion_date.isSome = true) :
    (applyOrderUpdate ns now r).completion_date.isSome = true := by
  unfold applyOrderUpdate
  split
  · rfl
  · split <;> exact h

theorem applyOrderUpdate_handover_isSome (ns now : String)
    (r : MeasurementSetRow) (h : r.handover_date.isSome = true) :
    (applyOrderUpdate ns now r).handover_date.isSome = true := by
  unfold applyOrderUpdate
  split
  · exact h
  · split
    · rfl
    · exact h

theorem applyPaymentUpdate_id (ns : String) (r : MeasurementSetRow) :
    (applyPaymentUpdate ns r).id = r.id := rfl

theorem applyPaymentUpdate_completion_isSome (ns : String)
    (r : MeasurementSetRow) (h : r.completion_date.isSome = true) :
    (applyPaymentUpdate ns r).completion_date.isSome = true := h

theorem applyPaymentUpdate_handover_isSome (ns : String)
    (r : MeasurementSetRow) (h : r.handover_date.isSome = true) :
    (applyPaymentUpdate ns r).handover_date.isSome = true := h

/-! Helper lemmas about `findSet` over an `updateRows` write. -/

theorem findSet_updateRows_self (setId : String)
    (g : MeasurementSetRow → MeasurementSetRow)
    (hg : ∀ r, (g r).id = r.id) (db : List MeasurementSetRow) :
    findSet (updateRows setId g db) setId = (findSet db setId).map g := by
  induction db with
  | nil => rfl
  | cons r rest ih =>
    by_cases h : r.id = setId
    · have hb : (r.id == setId) = true := beq_iff_eq.mpr h
      have hb2 : ((g r).id == setId) = true := by
        rw [hg r]; exact hb
      simp [updateRows, findSet, hb, hb2]
    · have hb : (r.id == setId) = false := by
        simp [h]
      simp [updateRows, findSet, hb, ih]

theorem findSet_updateRows_ne (setId q : String)
    (g : MeasurementSetRow → MeasurementSetRow)
    (hg : ∀ r, (g r).id = r.id) (hq : q ≠ setId)
    (db : List MeasurementSetRow) :
    findSet (updateRows setId g db) q = findSet db q := by
  induction db with
  | nil => rfl
  | cons r rest ih =>
    by_cases h : r.id = setId
    · have hb : (r.id == setId) = true := beq_iff_eq.mpr h
      have hrq : r.id ≠ q := by
        rw [h]; exact fun hh => hq hh.symm
      have hq1 : ((g r).id == q) = false := by
        rw [hg r]; simp [hrq]
      have hq2 : (r.id == q) = false := by
        simp [hrq]
      simp [updateRows, findSet, hb, hq1, hq2, ih]
    · have hb : (r.id == setId) = false := by
        simp [h]
      simp only [updateRows, hb, Bool.false_eq_true, if_false, findSet]
      rw [ih]

/-! Preservation of non-null timestamps across status updates. -/

theorem completionSet_mono_updateRows (setId s : String)
    (g : MeasurementSetRow → MeasurementSetRow)
    (hg : ∀ r, (g r).id = r.id)
    (hc : ∀ r, r.completion_date.isSome = true →
      (g r).completion_date.isSome = true)
    (db : List MeasurementSetRow) (h : completionSet db s = true) :
    completionSet (updateRows setId g db) s = true := by
  by_cases hs : s = setId
  · subst hs
    unfold completionSet at h ⊢
    rw [findSet_updateRows_self s g hg db]
    cases q : findSet db s with
    | none => rw [q] at h; exact absurd h (by simp)
    | some r =>
      rw [q] at h
      simpa using hc r h
  · unfold completionSet at h ⊢
    rw [findSet_updateRows_ne setId s g hg hs db]
    exact h

theorem handoverSet_mono_updateRows (setId s : String)
    (g : MeasurementSetRow → MeasurementSetRow)
    (hg : ∀ r, (g r).id = r.id)
    (hc : ∀ r, r.handover_date.isSome = true →
      (g r).handover_date.isSome = true)
    (db : List MeasurementSetRow) (h : handoverSet db s = true) :
    handoverSet (updateRows setId g db) s = true := by
  by_cases hs : s = setId
  · subst hs
    unfold handoverSet at h ⊢
    rw [findSet_updateRows_self s g hg db]
    cases q : findSet db s with
    | none => rw [q] at h; exact absurd h (by simp)
    | some r =>
      rw [q] at h
      simpa using hc r h
  · unfold handoverSet at h ⊢
    rw [findSet_updateRows_ne setId s g hg hs db]
    exact h

theorem completionSet_mono_step (op : StatusOp)
    (db : List MeasurementSetRow) (s : String)
    (h : completionSet db s = true) :
    completionSet (applyStatusOp op db) s = true := by
  cases op with
  | orderUpd sid cid ns now fl =>
    cases fl with
    | true => simpa [applyStatusOp, updateOrderStatus] using h
    | false =>
      simp only [applyStatusOp, updateOrderStatus, Bool.false_eq_true,
        if_neg, not_false_eq_true]
      exact completionSet_mono_updateRows sid s _
        (applyOrderUpdate_id ns now)
        (applyOrderUpdate_completion_isSome ns now) db h
  | payUpd sid cid ns fl =>
    cases fl with
    | true => simpa [applyStatusOp, updatePaymentStatus] using h
    | false =>
      simp only [applyStatusOp, updatePaymentStatus, Bool.false_eq_true,
        if_neg, not_false_eq_true]
      exact completionSet_mono_updateRows sid s _
        (applyPaymentUpdate_id ns)
        (applyPaymentUpdate_completion_isSome ns) db h

theorem handoverSet_mono_step (op : StatusOp)
    (db : List MeasurementSetRow) (s : String)
    (h : handoverSet db s = true) :
    handoverSet (applyStatusOp op db) s = true := by
  cases op with
  | orderUpd sid cid ns now fl =>
    cases fl with
    | true => simpa [applyStatusOp, updateOrderStatus] using h
    | false =>
      simp only [applyStatusOp, updateOrderStatus, Bool.false_eq_true,
        if_neg, not_false_eq_true]
      exact handoverSet_mono_updateRows sid s _
        (applyOrderUpdate_id ns now)
        (applyOrderUpdate_handover_isSome ns now) db h
  | payUpd sid cid ns fl =>
    cases fl with
    | true => simpa [applyStatusOp, updatePaymentStatus] using h
    | false =>
      simp only [applyStatusOp, updatePaymentStatus, Bool.false_eq_true,
        if_neg, not_false_eq_true]
      exact handoverSet_mono_updateRows sid s _
        (applyPaymentUpdate_id ns)
        (applyPaymentUpdate_handover_isSome ns) db h

theorem completionSet_mono_runOps (ops : List StatusOp)
    (db : List MeasurementSetRow) (s : String)
    (h : completionSet db s = true) :
    completionSet (runOps ops db) s = true := by
  induction ops generalizing db with
  | nil => simpa [runOps] using h
  | cons op rest ih =>
    have h1 := completionSet_mono_step op db s h
    simpa [runOps] using ih (applyStatusOp op db) h1

theorem handoverSet_mono_runOps (ops : List StatusOp)
    (db : List MeasurementSetRow) (s : String)
    (h : handoverSet db s = true) :
    handoverSet (runOps ops db) s = true := by
  induction ops generalizing db with
  | nil => simpa [runOps] using h
  | cons op rest ih =>
    have h1 := handoverSet_mono_step op db s h
    simpa [runOps] using ih (applyStatusOp op db) h1

/-! Case lemmas for the order-status update object, one per branch. -/

theorem applyOrderUpdate_completed (now : String) (r : MeasurementSetRow) :
    (applyOrderUpdate "Completed" now r).completion_date = some now ∧
    (applyOrderUpdate "Completed" now r).handover_date = r.handover_date := by
  unfold applyOrderUpdate
  rw [if_pos rfl]
  exact ⟨rfl, rfl⟩

theorem applyOrderUpdate_handedOver (now : String) (r : MeasurementSetRow) :
    (applyOrderUpdate "Handed Over" now r).handover_date = some now ∧
    (applyOrderUpdate "Handed Over" now r).completion_date =
      r.completion_date := by
  unfold applyOrderUpdate
  rw [if_neg (by decide), if_pos rfl]
  exact ⟨rfl, rfl⟩

theorem applyOrderUpdate_other (ns now : String) (r : MeasurementSetRow)
    (h1 : ns ≠ "Completed") (h2 : ns ≠ "Handed Over") :
    (applyOrderUpdate ns now r).completion_date = r.completion_date ∧
    (applyOrderUpdate ns now r).handover_date = r.handover_date := by
  unfold applyOrderUpdate
  rw [if_neg h1, if_neg h2]
  exact ⟨rfl, rfl⟩

/-- A projection that the partial update leaves untouched reads the same
before and after `updateRows`, for every row id. -/
theorem projAt_updateRows_pres {α : Type} (proj : MeasurementSetRow → α)
    (setId q : String) (g : MeasurementSetRow → MeasurementSetRow)
    (hg : ∀ r, (g r).id = r.id)
    (hp : ∀ r, proj (g r) = proj r) (db : List MeasurementSetRow) :
    (findSet (updateRows setId g db) q).map proj =
      (findSet db q).map proj := by
  by_cases hq : q = setId
  · subst hq
    rw [findSet_updateRows_self q g hg db]
    cases findSet db q <;> simp [hp]
  · rw [findSet_updateRows_ne setId q g hg hq db]

/-- Claim C1: `updateOrderStatus` overwrites the stored order status of the
targeted measurement set with the new status; when the new status is
`Completed` it also sets the completion date to the current time (a
non-null timestamp), when it is `Handed Over` it sets the handover date to
the current time, and for any other status value neither the completion
date nor the handover date is written. -/
theorem updateOrderStatus_effect (setId cid ns now : String)
    (db : List MeasurementSetRow) (h : findSet db setId ≠ none) :
    orderStatusAt (updateOrderStatus setId cid ns now false db).db setId
      = some ns ∧
    (ns = "Completed" →
      completionAt (updateOrderStatus setId cid ns now false db).db setId
        = some (some now)) ∧
    (ns = "Handed Over" →
      handoverAt (updateOrderStatus setId cid ns now false db).db setId
        = some (some now)) ∧
    (ns = "Completed" →
      handoverAt (updateOrderStatus setId cid ns now false db).db setId
        = handoverAt db setId) ∧
    (ns = "Handed Over" →
      completionAt (updateOrderStatus setId cid ns now false db).db setId
        = completionAt db setId) ∧
    (ns ≠ "Completed" → ns ≠ "Handed Over" →
      completionAt (updateOrderStatus setId cid ns now false db).db setId
        = completionAt db setId ∧
      handoverAt (updateOrderStatus setId cid ns now false db).db setId
        = handoverAt db setId) := by
  cases hq : findSet db setId with
  | none => exact absurd hq h
  | some r =>
    have hfind : findSet (updateOrderStatus setId cid ns now false db).db setId
        = some (applyOrderUpdate ns now r) := by
      show findSet (updateRows setId (applyOrderUpdate ns now) db) setId = _
      rw [findSet_updateRows_self setId _ (applyOrderUpdate_id ns now) db, hq]
      rfl
    refine ⟨?_, ?_, ?_, ?_, ?_, ?_⟩
    · unfold orderStatusAt
      rw [hfind]
      simp [applyOrderUpdate_status]
    · intro hns
      subst hns
      unfold completionAt
      rw [hfind]
      simp [(applyOrderUpdate_completed now r).1]
    · intro hns
      subst hns
      unfold handoverAt
      rw [hfind]
      simp [(applyOrderUpdate_handedOver now r).1]
    · intro hns
      subst hns
      unfold handoverAt
      rw [hfind, hq]
      simp [(applyOrderUpdate_completed now r).2]
    · intro hns
      subst hns
      unfold completionAt
      rw [hfind, hq]
      simp [(applyOrderUpdate_handedOver now r).2]
    · intro h1 h2
      constructor
      · unfold completionAt
        rw [hfind, hq]
        simp [(applyOrderUpdate_other ns now r h1 h2).1]
      · unfold handoverAt
        rw [hfind, hq]
        simp [(applyOrderUpdate_other ns now r h1 h2).2]

/-- Witness for C1 at a concrete stored row and the status `Completed`. -/
theorem updateOrderStatus_effect_witness :
    orderStatusAt (updateOrderStatus "s1" "c1" "Completed" "t1" false
      sampleDb).db "s1" = some "Completed" ∧
    completionAt (updateOrderStatus "s1" "c1" "Completed" "t1" false
      sampleDb).db "s1" = some (some "t1") ∧
    handoverAt (updateOrderStatus "s1" "c1" "Completed" "t1" false
      sampleDb).db "s1" = handoverAt sampleDb "s1" :=
  ⟨(updateOrderStatus_effect "s1" "c1" "Completed" "t1" sampleDb
      (by decide)).1,
   (updateOrderStatus_effect "s1" "c1" "Completed" "t1" sampleDb
      (by decide)).2.1 rfl,
   (updateOrderStatus_effect "s1" "c1" "Completed" "t1" sampleDb
      (by decide)).2.2.2.1 rfl⟩

/-- Claim C2: across any sequence of status-update calls, a non-null
completion or handover date never becomes null again; and a single
`updateOrderStatus` call whose status is neither `Completed` nor
`Handed Over` (in particular a regression to an earlier status) leaves
both timestamp columns of every row exactly as they were. -/
theorem timestamps_never_cleared (ops : List StatusOp)
    (db : List MeasurementSetRow) (setId setId2 cid ns now : String)
    (fl : Bool) (q : String) :
    (completionSet db setId = true →
      completionSet (runOps ops db) setId = true) ∧
    (handoverSet db setId = true →
      handoverSet (runOps ops db) setId = true) ∧
    (ns ≠ "Completed" → ns ≠ "Handed Over" →
      completionAt (updateOrderStatus setId2 cid ns now fl db).db q
        = completionAt db q ∧
      handoverAt (updateOrderStatus setId2 cid ns now fl db).db q
        = handoverAt db q) := by
  refine ⟨completionSet_mono_runOps ops db setId,
    handoverSet_mono_runOps ops db setId, ?_⟩
  intro h1 h2
  cases fl with
  | true => exact ⟨rfl, rfl⟩
  | false =>
    constructor
    · show (findSet (updateRows setId2 (applyOrderUpdate ns now) db) q).map
          (fun r => r.completion_date)
        = (findSet db q).map (fun r => r.completion_date)
      exact projAt_updateRows_pres _ setId2 q _ (applyOrderUpdate_id ns now)
        (fun r => (applyOrderUpdate_other ns now r h1 h2).1) db
    · show (findSet (updateRows setId2 (applyOrderUpdate ns now) db) q).map
          (fun r => r.handover_date)
        = (findSet db q).map (fun r => r.handover_date)
      exact projAt_updateRows_pres _ setId2 q _ (applyOrderUpdate_id ns now)
        (fun r => (applyOrderUpdate_other ns now r h1 h2).2) db

/-- Witness for C2: the stamped sample row keeps its timestamps across a
regression of its order status to `Pending`. -/
theorem timestamps_never_cleared_witness :
    completionSet (runOps [StatusOp.orderUpd "s2" "c1" "Pending" "t9" false]
      sampleDb) "s2" = true ∧
    handoverSet (runOps [StatusOp.orderUpd "s2" "c1" "Pending" "t9" false]
      sampleDb) "s2" = true ∧
    completionAt (updateOrderStatus "s2" "c1" "Pending" "t9" false
      sampleDb).db "s2" = completionAt sampleDb "s2" ∧
    handoverAt (updateOrderStatus "s2" "c1" "Pending" "t9" false
      sampleDb).db "s2" = handoverAt sampleDb "s2" :=
  ⟨(timestamps_never_cleared [StatusOp.orderUpd "s2" "c1" "Pending" "t9" false]
      sampleDb "s2" "s2" "c1" "Pending" "t9" false "s2").1 (by decide),
   (timestamps_never_cleared [StatusOp.orderUpd "s2" "c1" "Pending" "t9" false]
      sampleDb "s2" "s2" "c1" "Pending" "t9" false "s2").2.1 (by decide),
   ((timestamps_never_cleared [StatusOp.orderUpd "s2" "c1" "Pending" "t9" false]
      sampleDb "s2" "s2" "c1" "Pending" "t9" false "s2").2.2 (by decide)
      (by decide)).1,
   ((timestamps_never_cleared [StatusOp.orderUpd "s2" "c1" "Pending" "t9" false]
      sampleDb "s2" "s2" "c1" "Pending" "t9" false "s2").2.2 (by decide)
      (by decide)).2⟩

/-- Applying the payment-status write twice with the same arguments leaves
the table exactly as after one application. -/
theorem updateRows_payment_idem (setId ns : String)
    (db : List MeasurementSetRow) :
    updateRows setId (applyPaymentUpdate ns)
        (updateRows setId (applyPaymentUpdate ns) db)
      = updateRows setId (applyPaymentUpdate ns) db := by
  induction db with
  | nil => rfl
  | cons r rest ih =>
    by_cases h : r.id = setId
    · have hb : (r.id == setId) = true := beq_iff_eq.mpr h
      have hb2 : ((applyPaymentUpdate ns r).id == setId) = true := hb
      simp [updateRows, hb, hb2, ih]
      rfl
    · have hb : (r.id == setId) = false := by
        simp [h]
      simp [updateRows, hb, ih]

/-- Claim C3: applying the same status update twice in succession yields
the same final stored status value as applying it once; the second
application does not clear a timestamp stamped by the first; and for the
payment status the second application leaves the table exactly as after
the first. -/
theorem statusUpdate_idempotent (setId cid ns now1 now2 : String)
    (db : List MeasurementSetRow) :
    orderStatusAt (updateOrderStatus setId cid ns now2 false
        (updateOrderStatus setId cid ns now1 false db).db).db setId
      = orderStatusAt (updateOrderStatus setId cid ns now1 false db).db
          setId ∧
    (completionSet (updateOrderStatus setId cid ns now1 false db).db setId
        = true →
      completionSet (updateOrderStatus setId cid ns now2 false
        (updateOrderStatus setId cid ns now1 false db).db).db setId
        = true) ∧
    (handoverSet (updateOrderStatus setId cid ns now1 false db).db setId
        = true →
      handoverSet (updateOrderStatus setId cid ns now2 false
        (updateOrderStatus setId cid ns now1 false db).db).db setId
        = true) ∧
    (updatePaymentStatus setId cid ns false
        (updatePaymentStatus setId cid ns false db).db).db
      = (updatePaymentStatus setId cid ns false db).db := by
  refine ⟨?_, ?_, ?_, ?_⟩
  · show orderStatusAt (updateRows setId (applyOrderUpdate ns now2)
        (updateRows setId (applyOrderUpdate ns now1) db)) setId
      = orderStatusAt (updateRows setId (applyOrderUpdate ns now1) db) setId
    unfold orderStatusAt
    rw [findSet_updateRows_self setId _ (applyOrderUpdate_id ns now2),
        findSet_updateRows_self setId _ (applyOrderUpdate_id ns now1)]
    cases findSet db setId <;> simp [applyOrderUpdate_status]
  · intro h
    exact completionSet_mono_updateRows setId setId _
      (applyOrderUpdate_id ns now2)
      (applyOrderUpdate_completion_isSome ns now2) _ h
  · intro h
    exact handoverSet_mono_updateRows setId setId _
      (applyOrderUpdate_id ns now2)
      (applyOrderUpdate_handover_isSome ns now2) _ h
  · exact updateRows_payment_idem setId ns db

/-- Witness for C3 on the stamped sample row with status `Completed`. -/
theorem statusUpdate_idempotent_witness :
    orderStatusAt (updateOrderStatus "s2" "c1" "Completed" "t2" false
        (updateOrderStatus "s2" "c1" "Completed" "t1" false sampleDb).db).db
        "s2"
      = orderStatusAt (updateOrderStatus "s2" "c1" "Completed" "t1" false
          sampleDb).db "s2" ∧
    completionSet (updateOrderStatus "s2" "c1" "Completed" "t2" false
        (updateOrderStatus "s2" "c1" "Completed" "t1" false sampleDb).db).db
        "s2" = true ∧
    handoverSet (updateOrderStatus "s2" "c1" "Completed" "t2" false
        (updateOrderStatus "s2" "c1" "Completed" "t1" false sampleDb).db).db
        "s2" = true ∧
    (updatePaymentStatus "s2" "c1" "Completed" false
        (updatePaymentStatus "s2" "c1" "Completed" false sampleDb).db).db
      = (updatePaymentStatus "s2" "c1" "Completed" false sampleDb).db :=
  ⟨(statusUpdate_idempotent "s2" "c1" "Completed" "t1" "t2" sampleDb).1,
   (statusUpdate_idempotent "s2" "c1" "Completed" "t1" "t2" sampleDb).2.1
     (by decide),
   (statusUpdate_idempotent "s2" "c1" "Completed" "t1" "t2" sampleDb).2.2.1
     (by decide),
   (statusUpdate_idempotent "s2" "c1" "Completed" "t1" "t2" sampleDb).2.2.2⟩

/-- Claim C4: `updatePaymentStatus` overwrites only the payment status of
the targeted measurement set — it writes no completion or handover
timestamp, leaves the order status alone, and leaves untargeted rows
untouched — and conversely `updateOrderStatus` leaves every row's payment
status unchanged. -/
theorem updatePaymentStatus_frame (setId cid ns now q : String)
    (db : List MeasurementSetRow) :
    completionAt (updatePaymentStatus setId cid ns false db).db q
      = completionAt db q ∧
    handoverAt (updatePaymentStatus setId cid ns false db).db q
      = handoverAt db q ∧
    orderStatusAt (updatePaymentStatus setId cid ns false db).db q
      = orderStatusAt db q ∧
    (q ≠ setId →
      findSet (updatePaymentStatus setId cid ns false db).db q
        = findSet db q) ∧
    findSet (updatePaymentStatus setId cid ns false db).db setId
      = (findSet db setId).map (applyPaymentUpdate ns) ∧
    (findSet db setId ≠ none →
      paymentAt (updatePaymentStatus setId cid ns false db).db setId
        = some ns) ∧
    paymentAt (updateOrderStatus setId cid ns now false db).db q
      = paymentAt db q := by
  refine ⟨?_, ?_, ?_, ?_, ?_, ?_, ?_⟩
  · show (findSet (updateRows setId (applyPaymentUpdate ns) db) q).map
        (fun r => r.completion_date)
      = (findSet db q).map (fun r => r.completion_date)
    exact projAt_updateRows_pres (fun r => r.completion_date) setId q
      (applyPaymentUpdate ns) (applyPaymentUpdate_id ns) (fun r => rfl) db
  · show (findSet (updateRows setId (applyPaymentUpdate ns) db) q).map
        (fun r => r.handover_date)
      = (findSet db q).map (fun r => r.handover_date)
    exact projAt_updateRows_pres (fun r => r.handover_date) setId q
      (applyPaymentUpdate ns) (applyPaymentUpdate_id ns) (fun r => rfl) db
  · show (findSet (updateRows setId (applyPaymentUpdate ns) db) q).map
        (fun r => r.order_status)
      = (findSet db q).map (fun r => r.order_status)
    exact projAt_updateRows_pres (fun r => r.order_status) setId q
      (applyPaymentUpdate ns) (applyPaymentUpdate_id ns) (fun r => rfl) db
  · intro hq
    exact findSet_updateRows_ne setId q _ (applyPaymentUpdate_id ns) hq db
  · exact findSet_updateRows_self setId _ (applyPaymentUpdate_id ns) db
  · intro h
    cases hq : findSet db setId with
    | none => exact absurd hq h
    | some r =>
      unfold paymentAt
      show (findSet (updateRows setId (applyPaymentUpdate ns) db)
          setId).map (fun r => r.payment_status) = some ns
      rw [findSet_updateRows_self setId _ (applyPaymentUpdate_id ns) db, hq]
      rfl
  · show (findSet (updateRows setId (applyOrderUpdate ns now) db) q).map
        (fun r => r.payment_status)
      = (findSet db q).map (fun r => r.payment_status)
    exact projAt_updateRows_pres _ setId q _ (applyOrderUpdate_id ns now)
      (applyOrderUpdate_payment ns now) db

/-- Witness for C4 at the sample table, targeting `s2` and reading `s1`. -/
theorem updatePaymentStatus_frame_witness :
    completionAt (updatePaymentStatus "s2" "c1" "Paid" false sampleDb).db
        "s1" = completionAt sampleDb "s1" ∧
    handoverAt (updatePaymentStatus "s2" "c1" "Paid" false sampleDb).db
        "s1" = handoverAt sampleDb "s1" ∧
    orderStatusAt (updatePaymentStatus "s2" "c1" "Paid" false sampleDb).db
        "s1" = orderStatusAt sampleDb "s1" ∧
    findSet (updatePaymentStatus "s2" "c1" "Paid" false sampleDb).db "s1"
      = findSet sampleDb "s1" ∧
    findSet (updatePaymentStatus "s2" "c1" "Paid" false sampleDb).db "s2"
      = (findSet sampleDb "s2").map (applyPaymentUpdate "Paid") ∧
    paymentAt (updatePaymentStatus "s2" "c1" "Paid" false sampleDb).db "s2"
      = some "Paid" ∧
    paymentAt (updateOrderStatus "s2" "c1" "Paid" "t3" false sampleDb).db
        "s1" = paymentAt sampleDb "s1" :=
  ⟨(updatePaymentStatus_frame "s2" "c1" "Paid" "t3" "s1" sampleDb).1,
   (updatePaymentStatus_frame "s2" "c1" "Paid" "t3" "s1" sampleDb).2.1,
   (updatePaymentStatus_frame "s2" "c1" "Paid" "t3" "s1" sampleDb).2.2.1,
   (updatePaymentStatus_frame "s2" "c1" "Paid" "t3" "s1" sampleDb).2.2.2.1
     (by decide),
   (updatePaymentStatus_frame "s2" "c1" "Paid" "t3" "s1" sampleDb).2.2.2.2.1,
   (updatePaymentStatus_frame "s2" "c1" "Paid" "t3" "s1"
      sampleDb).2.2.2.2.2.1 (by decide),
   (updatePaymentStatus_frame "s2" "c1" "Paid" "t3" "s1"
      sampleDb).2.2.2.2.2.2⟩

/-- Claim C8: `addMeasurementSet` appends one row whose creation date is
the current time and whose job number, request date, payment status and
order status are exactly the caller's values, with no default substituted
and with null completion and handover dates; the rest of the table is
untouched. -/
theorem addMeasurementSet_effect (cid : String) (ms : NewMeasurementSet)
    (now newId : String) (db : List MeasurementSetRow) :
    (addMeasurementSet cid ms now newId false db).db.getLast?
      = some (mkInsertedRow cid now newId ms) ∧
    (addMeasurementSet cid ms now newId false db).db.dropLast = db ∧
    (mkInsertedRow cid now newId ms).date = now ∧
    (mkInsertedRow cid now newId ms).customer_id = cid ∧
    (mkInsertedRow cid now newId ms).measurements = ms.measurements ∧
    (mkInsertedRow cid now newId ms).job_number = ms.jobNumber ∧
    (mkInsertedRow cid now newId ms).request_date = ms.requestDate ∧
    (mkInsertedRow cid now newId ms).payment_status = ms.paymentStatus ∧
    (mkInsertedRow cid now newId ms).order_status = ms.orderStatus ∧
    (mkInsertedRow cid now newId ms).completion_date = none ∧
    (mkInsertedRow cid now newId ms).handover_date = none ∧
    (addMeasurementSet cid ms now newId false db).result
      = ActionResult.success := by
  refine ⟨?_, ?_, rfl, rfl, rfl, rfl, rfl, rfl, rfl, rfl, rfl, rfl⟩
  · show (db ++ [mkInsertedRow cid now newId ms]).getLast? = _
    simp
  · show (db ++ [mkInsertedRow cid now newId ms]).dropLast = db
    simp

/-- Claim C9: two status-update calls that agree on the set id and the new
status but differ in the customer id apply the identical change to the
stored measurement-set table and return the same result; the customer id
argument only selects which cached customer page path is invalidated. -/
theorem customerId_only_affects_revalidation (setId cA cB ns now : String)
    (fl : Bool) (db : List MeasurementSetRow) :
    (updateOrderStatus setId cA ns now fl db).db
      = (updateOrderStatus setId cB ns now fl db).db ∧
    (updateOrderStatus setId cA ns now fl db).result
      = (updateOrderStatus setId cB ns now fl db).result ∧
    (fl = false →
      (updateOrderStatus setId cA ns now fl db).revalidated
        = [custPath cA]) ∧
    (updatePaymentStatus setId cA ns fl db).db
      = (updatePaymentStatus setId cB ns fl db).db ∧
    (updatePaymentStatus setId cA ns fl db).result
      = (updatePaymentStatus setId cB ns fl db).result ∧
    (fl = false →
      (updatePaymentStatus setId cA ns fl db).revalidated
        = [custPath cA]) := by
  cases fl <;> simp [updateOrderStatus, updatePaymentStatus]

/-- Witness for C9 with two distinct customer ids on the sample table. -/
theorem customerId_only_affects_revalidation_witness :
    (updateOrderStatus "s1" "cA" "Completed" "t1" false sampleDb).db
      = (updateOrderStatus "s1" "cB" "Completed" "t1" false sampleDb).db ∧
    (updateOrderStatus "s1" "cA" "Completed" "t1" false sampleDb).result
      = (updateOrderStatus "s1" "cB" "Completed" "t1" false sampleDb).result ∧
    (updateOrderStatus "s1" "cA" "Completed" "t1" false sampleDb).revalidated
      = [custPath "cA"] ∧
    (updatePaymentStatus "s1" "cA" "Paid" false sampleDb).db
      = (updatePaymentStatus "s1" "cB" "Paid" false sampleDb).db ∧
    (updatePaymentStatus "s1" "cA" "Paid" false sampleDb).result
      = (updatePaymentStatus "s1" "cB" "Paid" false sampleDb).result ∧
    (updatePaymentStatus "s1" "cA" "Paid" false sampleDb).revalidated
      = [custPath "cA"] :=
  ⟨(customerId_only_affects_revalidation "s1" "cA" "cB" "Completed" "t1"
      false sampleDb).1,
   (customerId_only_affects_revalidation "s1" "cA" "cB" "Completed" "t1"
      false sampleDb).2.1,
   (customerId_only_affects_revalidation "s1" "cA" "cB" "Completed" "t1"
      false sampleDb).2.2.1 rfl,
   (customerId_only_affects_revalidation "s1" "cA" "cB" "Paid" "t1"
      false sampleDb).2.2.2.1,
   (customerId_only_affects_revalidation "s1" "cA" "cB" "Paid" "t1"
      false sampleDb).2.2.2.2.1,
   (customerId_only_affects_revalidation "s1" "cA" "cB" "Paid" "t1"
      false sampleDb).2.2.2.2.2 rfl⟩

/-- Claim C10: when the joined select fails, `getCustomers` returns the
empty list — exactly what it returns for a user with zero customers, so
the two cases are indistinguishable to the caller. -/
theorem getCustomers_error_indistinguishable (msg : String) :
    getCustomers (Except.error msg) = [] ∧
    getCustomers (Except.ok []) = [] ∧
    getCustomers (Except.error msg) = getCustomers (Except.ok []) :=
  ⟨rfl, rfl, rfl⟩

/-! Validation lemmas. -/

theorem splitOnChar_of_not_mem (sep : Char) (cs : List Char)
    (h : sep ∉ cs) : splitOnChar sep cs = [cs] := by
  induction cs with
  | nil => rfl
  | cons c rest ih =>
    have hc : ¬ c = sep := by
      intro hh
      subst hh
      exact h (List.mem_cons_self c rest)
    have hr : sep ∉ rest := fun hh => h (List.mem_cons_of_mem c hh)
    simp [splitOnChar, hc, ih hr]

theorem zodEmailChars_no_at (cs : List Char) (h : '@' ∉ cs) :
    zodEmailChars cs = false := by
  unfold zodEmailChars
  rw [splitOnChar_of_not_mem '@' cs h]

/-- Claim C5 (evaluation at the failing input): the customer-form schema
rejects the non-empty contact string "077" — whose length is positive but
below the enforced minimum of five — while its own error message states
that contact information is merely required, and the other fields of the
input satisfy their constraints. -/
theorem customerForm_rejects_nonEmpty_contact :
    customerFormValid ⟨"A B", "12345", "077", none, none⟩ = false ∧
    customerFieldErrors ⟨"A B", "12345", "077", none, none⟩
      = [("contact", "Contact information is required.")] ∧
    zodMin 2 "A B" = true ∧
    zodMin 5 "12345" = true ∧
    0 < "077".length ∧
    zodMin 5 "077" = false :=
  ⟨by decide, by decide, by decide, by decide, by decide, by decide⟩

/-- Claim C6: the login schema rejects every password of length five,
accepts every password of length six, rejects every email that contains no
at-sign, and accepts a submission whose email passes the email format check
and whose password has length six. -/
theorem loginSchema_boundaries :
    (∀ f : LoginForm, f.password.length = 5 →
      loginSchemaValid f = false) ∧
    (∀ p : String, p.length = 6 → zodMin 6 p = true) ∧
    (∀ f : LoginForm, '@' ∉ f.email.toList →
      loginSchemaValid f = false) ∧
    (∀ f : LoginForm, zodEmail f.email = true → f.password.length = 6 →
      loginSchemaValid f = true) := by
  refine ⟨?_, ?_, ?_, ?_⟩
  · intro f h
    unfold loginSchemaValid zodMin
    rw [h]
    simp
  · intro p h
    unfold zodMin
    rw [h]
    decide
  · intro f h
    unfold loginSchemaValid zodEmail
    rw [zodEmailChars_no_at _ h]
    simp
  · intro f h1 h2
    unfold loginSchemaValid zodMin
    rw [h1, h2]
    decide

/-- Witness for C6 at concrete boundary inputs. -/
theorem loginSchema_boundaries_witness :
    loginSchemaValid ⟨"a@bc.de", "12345"⟩ = false ∧
    zodMin 6 "123456" = true ∧
    loginSchemaValid ⟨"abc.de", "123456"⟩ = false ∧
    loginSchemaValid ⟨"a@bc.de", "123456"⟩ = true :=
  ⟨loginSchema_boundaries.1 ⟨"a@bc.de", "12345"⟩ (by decide),
   loginSchema_boundaries.2.1 "123456" (by decide),
   loginSchema_boundaries.2.2.1 ⟨"abc.de", "123456"⟩ (by decide),
   loginSchema_boundaries.2.2.2 ⟨"a@bc.de", "123456"⟩ (by decide)
     (by decide)⟩

/-- A form that fails the customer schema always produces at least one
field-level message. -/
theorem customerFieldErrors_ne_nil (g : CustomerForm)
    (h : customerFormValid g = false) : customerFieldErrors g ≠ [] := by
  unfold customerFormValid at h
  unfold customerFieldErrors
  cases h1 : zodMin 2 g.name with
  | false => simp [h1]
  | true =>
    cases h2 : zodMin 5 g.nic with
    | false => simp [h1, h2]
    | true =>
      cases h3 : zodMin 5 g.contact with
      | false => simp [h1, h2, h3]
      | true =>
        rw [h1, h2, h3] at h
        simp at h

/-- Counterexample to C7 as stated: this login submission fails schema
validation, yet the returned error object carries no field-level
messages (only the customer actions attach them). -/
theorem login_error_lacks_field_messages :
    loginSchemaValid ⟨"bad", "123"⟩ = false ∧
    (login ⟨"bad", "123"⟩ true).1 = FormResult.failure "Invalid fields" [] ∧
    hasFieldMessages (login ⟨"bad", "123"⟩ true).1 = false ∧
    (login ⟨"bad", "123"⟩ true).2 = [] ∧
    (signup ⟨"bad", "123"⟩ true).1
      = FormResult.failure "Invalid fields" [] ∧
    hasFieldMessages (signup ⟨"bad", "123"⟩ true).1 = false :=
  ⟨by decide, by decide, by decide, by decide, by decide, by decide⟩

/-- Claim C7 (amended): every form input that fails schema validation makes
the operation return a structured error result and perform no store or
authentication call, so no state is changed; `createCustomer` and
`updateCustomer` attach the (always non-empty) field-level messages, while
`login` and `signup` return only the generic invalid-fields error. -/
theorem validationFailure_no_state_change (f : LoginForm) (g : CustomerForm)
    (authOk storeFail : Bool) (user : Option String)
    (newId customerId : String) (customers : List CustomerRow) :
    (loginSchemaValid f = false →
      (login f authOk).1 = FormResult.failure "Invalid fields" [] ∧
      (login f authOk).2 = []) ∧
    (signupSchemaValid f = false →
      (signup f authOk).1 = FormResult.failure "Invalid fields" [] ∧
      (signup f authOk).2 = []) ∧
    (customerFormValid g = false →
      (createCustomer g user newId storeFail customers).1
        = FormResult.failure "Invalid fields" (customerFieldErrors g) ∧
      (createCustomer g user newId storeFail customers).2.1 = customers ∧
      (createCustomer g user newId storeFail customers).2.2 = [] ∧
      customerFieldErrors g ≠ []) ∧
    (customerFormValid g = false →
      (updateCustomer customerId g storeFail customers).1
        = FormResult.failure "Invalid fields" (customerFieldErrors g) ∧
      (updateCustomer customerId g storeFail customers).2.1 = customers ∧
      (updateCustomer customerId g storeFail customers).2.2 = [] ∧
      customerFieldErrors g ≠ []) := by
  refine ⟨?_, ?_, ?_, ?_⟩
  · intro h
    simp [login, h]
  · intro h
    simp [signup, h]
  · intro h
    refine ⟨?_, ?_, ?_, customerFieldErrors_ne_nil g h⟩ <;>
      simp [createCustomer, h]
  · intro h
    refine ⟨?_, ?_, ?_, customerFieldErrors_ne_nil g h⟩ <;>
      simp [updateCustomer, h]

/-- Witness for the amended C7 at concrete invalid submissions. -/
theorem validationFailure_no_state_change_witness :
    ((login ⟨"bad", "123"⟩ true).1
        = FormResult.failure "Invalid fields" [] ∧
      (login ⟨"bad", "123"⟩ true).2 = []) ∧
    ((signup ⟨"bad", "123"⟩ true).1
        = FormResult.failure "Invalid fields" [] ∧
      (signup ⟨"bad", "123"⟩ true).2 = []) ∧
    ((createCustomer ⟨"A", "1", "0", none, none⟩ (some "u") "n" false []).1
        = FormResult.failure "Invalid fields"
            (customerFieldErrors ⟨"A", "1", "0", none, none⟩) ∧
      (createCustomer ⟨"A", "1", "0", none, none⟩ (some "u") "n" false
          []).2.1 = [] ∧
      (createCustomer ⟨"A", "1", "0", none, none⟩ (some "u") "n" false
          []).2.2 = [] ∧
      customerFieldErrors ⟨"A", "1", "0", none, none⟩ ≠ []) ∧
    ((updateCustomer "c9" ⟨"A", "1", "0", none, none⟩ false []).1
        = FormResult.failure "Invalid fields"
            (customerFieldErrors ⟨"A", "1", "0", none, none⟩) ∧
      (updateCustomer "c9" ⟨"A", "1", "0", none, none⟩ false []).2.1
        = [] ∧
      (updateCustomer "c9" ⟨"A", "1", "0", none, none⟩ false []).2.2
        = [] ∧
      customerFieldErrors ⟨"A", "1", "0", none, none⟩ ≠ []) :=
  ⟨(validationFailure_no_state_change ⟨"bad", "123"⟩
      ⟨"A", "1", "0", none, none⟩ true false (some "u") "n" "c9" []).1
      (by decide),
   (validationFailure_no_state_change ⟨"bad", "123"⟩
      ⟨"A", "1", "0", none, none⟩ true false (some "u") "n" "c9" []).2.1
      (by decide),
   (validationFailure_no_state_change ⟨"bad", "123"⟩
      ⟨"A", "1", "0", none, none⟩ true false (some "u") "n" "c9" []).2.2.1
      (by decide),
   (validationFailure_no_state_change ⟨"bad", "123"⟩
      ⟨"A", "1", "0", none, none⟩ true false (some "u") "n" "c9" []).2.2.2
      (by decide)⟩
